import Mathlib

/-!
Verification of the distributed vehicle state engine of
`v2x_drowziness_2.py`: per-vehicle kinematics and decision logic
(`Vehicle.update_physics`), the wire codec (`Vehicle.to_json` /
`Vehicle.from_json`), the inbound merge (`V2XApp.on_message`) and the
ghost sweep (`V2XApp.cleanup_ghosts`).

Modelling conventions: Python floats are modelled as `Rat`; the wire
message (a JSON object) is modelled structurally as a record of
`Option` fields, where a missing field is `none` and a payload that is
not valid JSON at all is `none` at the outer `Option Msg` level.  The
vehicle dictionary `self.vehicles` is modelled as an association list;
its values are `Option Vehicle` because the Python code can store
`None` in the dictionary (see `V2XApp.on_message`).  Python `try`
blocks with in-place attribute mutation are modelled by threading the
partially updated record up to the point of the first failing field
access.
-/

namespace V2X

/-- `Config` constants used by the core (from the `Config` class). -/
def TOTAL_LENGTH : Rat := 2000

def LANE_COUNT : Int := 4

def SERVICE_LANE_INDEX : Int := 3

def MAX_SPEED_KMH : Rat := 250

def MAX_SPEED_MS : Rat := MAX_SPEED_KMH / (36 / 10)

def ACCEL : Rat := 10

def BRAKE : Rat := 25

def SAFE_DIST : Rat := 200

def CRITICAL_DIST : Rat := 80

def AMBULANCE_DIST : Rat := 400

def GHOST_TIMEOUT : Rat := 3

/-- The `Vehicle` object (its fields, as set in `Vehicle.__init__`). -/
structure Vehicle where
  id : String
  is_emergency : Bool
  lane : Int
  visual_lane : Rat
  x : Rat
  speed : Rat
  user_target_speed : Rat
  target_speed : Rat
  color : Int × Int × Int
  warning_vehicle_ahead : Bool
  braking : Bool
  drowsy_alert : Bool
  last_update : Rat
  lane_change_cooldown : Rat
deriving DecidableEq, Repr

/-- `Vehicle.__init__(uid, is_emergency)`.  The `random.randint` draws
for the initial position, speed and color are passed in explicitly as
`rx`, `rs`, `rc`; `now` stands for `time.time()`. -/
def Vehicle.init (uid : String) (is_emergency : Bool)
    (rx rs : Rat) (rc : Int × Int × Int) (now : Rat) : Vehicle :=
  { id := uid
    is_emergency := is_emergency
    lane := if is_emergency then 0 else 1
    visual_lane := if is_emergency then 0 else 1
    x := if is_emergency then 0 else rx
    speed := if is_emergency then MAX_SPEED_MS else rs
    user_target_speed := 25
    target_speed := if is_emergency then MAX_SPEED_MS else rs
    color := if is_emergency then (255, 215, 0) else rc
    warning_vehicle_ahead := false
    braking := false
    drowsy_alert := false
    last_update := now
    lane_change_cooldown := 0 }

/-- One iteration of the neighbour scan loop at the top of
`Vehicle.update_physics`: it accumulates the minimal forward circular
distance to a same-lane vehicle (with that vehicle's speed) and
whether an emergency vehicle is within `AMBULANCE_DIST` behind on the
same lane.  `acc = (dist_to_ahead, speed_of_car_ahead,
ambulance_behind)`, with `none` standing for `inf` / `None`. -/
def scanStep (self : Vehicle) (acc : Option Rat × Option Rat × Bool)
    (other : Vehicle) : Option Rat × Option Rat × Bool :=
  if other.id = self.id then acc
  else
    let dAheadRaw := other.x - self.x
    let dBehindRaw := self.x - other.x
    let dAhead := if dAheadRaw < 0 then dAheadRaw + TOTAL_LENGTH else dAheadRaw
    let dBehind := if dBehindRaw < 0 then dBehindRaw + TOTAL_LENGTH else dBehindRaw
    if other.lane = self.lane then
      let best :=
        match acc.1 with
        | none => (some dAhead, some other.speed)
        | some dcur =>
          if dAhead < dcur then (some dAhead, some other.speed)
          else (acc.1, acc.2.1)
      let amb := if other.is_emergency = true ∧ dBehind < AMBULANCE_DIST then true else acc.2.2
      (best.1, best.2, amb)
    else acc

/-- The whole neighbour scan loop of `Vehicle.update_physics` over
`all_vehicles.values()`. -/
def scanNeighbors (self : Vehicle) (all : List Vehicle) :
    Option Rat × Option Rat × Bool :=
  all.foldl (scanStep self) (none, none, false)

/-- The speed ramp of `Vehicle.update_physics` (accelerate toward /
brake toward the target speed at fixed rates). -/
def rampSpeed (speed target dt : Rat) : Rat :=
  if speed < target then speed + ACCEL * dt
  else if speed > target then speed - BRAKE * dt
  else speed

/-- Python's builtin `min` of two values (comparison-based). -/
def pymin (a b : Rat) : Rat := if a ≤ b then a else b

/-- Python's builtin `max` of two values (comparison-based). -/
def pymax (a b : Rat) : Rat := if a ≥ b then a else b

/-- The Kinematics step: the `# Physics` tail of
`Vehicle.update_physics` (speed ramp, clamp to
`[0, MAX_SPEED_MS * 1.5]`, position advance, reset to `0` past
`TOTAL_LENGTH`). -/
def Vehicle.kinematics (self : Vehicle) (dt : Rat) : Vehicle :=
  let s := pymax 0 (pymin (rampSpeed self.speed self.target_speed dt) (MAX_SPEED_MS * (3 / 2)))
  let x0 := self.x + s * dt
  let x1 := if x0 > TOTAL_LENGTH then 0 else x0
  { self with speed := s, x := x1 }

/-- The Decision Engine: flag reset, cooldown decrement and the
`# === LOGIC ===` priority chain of `Vehicle.update_physics`, taking
the neighbour-scan result `(dist_to_ahead, speed_of_car_ahead,
ambulance_behind)` as input. -/
def decisionStep (self : Vehicle) (dt : Rat)
    (scan : Option Rat × Option Rat × Bool) (is_me_drowsy : Bool) : Vehicle :=
  let distAhead := scan.1
  let speedAhead := scan.2.1
  let ambulanceBehind := scan.2.2
  let s1 : Vehicle :=
    { self with
      warning_vehicle_ahead := false
      braking := false
      lane_change_cooldown := self.lane_change_cooldown - dt }
  let s2 : Vehicle :=
    if is_me_drowsy then
      let sd := { s1 with drowsy_alert := true }
      if sd.lane ≠ SERVICE_LANE_INDEX then
        if sd.lane_change_cooldown ≤ 0 then
          { sd with lane := sd.lane + 1, lane_change_cooldown := 1 }
        else sd
      else { sd with target_speed := 0, braking := true }
    else if ambulanceBehind = true ∧ s1.is_emergency = false ∧ s1.lane_change_cooldown ≤ 0 then
      if s1.lane < LANE_COUNT - 1 then
        { s1 with lane := s1.lane + 1, lane_change_cooldown := 2 }
      else if s1.lane > 0 then
        { s1 with lane := s1.lane - 1, lane_change_cooldown := 2 }
      else s1
    else if s1.is_emergency = true then
      { s1 with target_speed := MAX_SPEED_MS * (12 / 10) }
    else
      match distAhead with
      | some d =>
        if d < CRITICAL_DIST then
          { s1 with target_speed := 0, warning_vehicle_ahead := true, braking := true }
        else if d < SAFE_DIST then
          let sb :=
            { s1 with
              target_speed :=
                match speedAhead with
                | some sp => sp * (8 / 10)
                | none => 10
              braking := true }
          if sb.speed > speedAhead.getD 0 then
            { sb with warning_vehicle_ahead := true }
          else sb
        else { s1 with target_speed := s1.user_target_speed }
      | none => { s1 with target_speed := s1.user_target_speed }
  s2

/-- `Vehicle.update_physics(dt, all_vehicles, is_me_drowsy)`:
neighbour scan, decision chain, then the Kinematics step. -/
def Vehicle.update_physics (self : Vehicle) (dt : Rat)
    (all : List Vehicle) (is_me_drowsy : Bool) : Vehicle :=
  Vehicle.kinematics (decisionStep self dt (scanNeighbors self all) is_me_drowsy) dt

/-- A wire message: the JSON object produced by `Vehicle.to_json` /
consumed by `Vehicle.from_json` and `V2XApp.on_message`, modelled
structurally.  A field absent from the JSON object is `none`. -/
structure Msg where
  id : Option String
  lane : Option Int
  x : Option Rat
  spd : Option Rat
  emb : Option Bool
  col : Option (Int × Int × Int)
  drw : Option Bool
  brk : Option Bool
deriving DecidableEq, Repr

/-- `Vehicle.to_json`: the replicated snapshot put on the wire. -/
def Vehicle.to_json (v : Vehicle) : Msg :=
  { id := some v.id
    lane := some v.lane
    x := some v.x
    spd := some v.speed
    emb := some v.is_emergency
    col := some v.color
    drw := some v.drowsy_alert
    brk := some v.braking }

/-- `Vehicle.from_json(payload)`.  `payload = none` models a string
that is not valid JSON (`json.loads` raising).  Any missing required
field raises a `KeyError` inside the `try`, so the whole decode
returns `None`; `drw` and `brk` fall back to `False` via `.get`.
`now`, `rx`, `rs`, `rc` are `time.time()` and the constructor's random
draws. -/
def Vehicle.from_json (payload : Option Msg) (now rx rs : Rat)
    (rc : Int × Int × Int) : Option Vehicle :=
  match payload with
  | none => none
  | some d =>
    match d.id, d.emb, d.lane, d.x, d.spd, d.col with
    | some mid, some emb, some lane, some x, some spd, some col =>
      some
        { Vehicle.init mid emb rx rs rc now with
          lane := lane
          x := x
          speed := spd
          color := col
          drowsy_alert := d.drw.getD false
          braking := d.brk.getD false
          visual_lane := (lane : Rat)
          last_update := now }
    | _, _, _, _, _, _ => none

/-- The local vehicle dictionary `self.vehicles`.  Values are
`Option Vehicle` because `V2XApp.on_message` can store the `None`
returned by a failed `Vehicle.from_json`. -/
def Store := List (String × Option Vehicle)

instance : DecidableEq Store := by
  unfold Store
  infer_instance

/-- Dictionary access: `some v` when the key is present (with `v` the
stored value, itself an `Option Vehicle`), `none` when absent. -/
def storeLookup : Store → String → Option (Option Vehicle)
  | [], _ => none
  | (k, v) :: rest, key => if k = key then some v else storeLookup rest key

/-- Dictionary assignment `store[key] = v`: update in place when the
key is present, append otherwise. -/
def storeSet : Store → String → Option Vehicle → Store
  | [], key, v => [(key, v)]
  | (k, w) :: rest, key, v =>
    if k = key then (key, v) :: rest else (k, w) :: storeSet rest key v

/-- The sequential in-place field merge of the known-vehicle branch of
`V2XApp.on_message` (`v.x = d['x']; v.lane = d['lane']; ...`).  A
`KeyError` on a missing field aborts the statement sequence, leaving
every field assigned so far mutated (partial application); `drw` and
`brk` use `.get` with default `False` and never fail. -/
def mergeKnown (v : Vehicle) (d : Msg) (now : Rat) : Vehicle :=
  match d.x with
  | none => v
  | some x =>
    let v1 := { v with x := x }
    match d.lane with
    | none => v1
    | some lane =>
      let v2 := { v1 with lane := lane }
      match d.spd with
      | none => v2
      | some spd =>
        let v3 := { v2 with speed := spd }
        match d.emb with
        | none => v3
        | some emb =>
          { v3 with
            is_emergency := emb
            drowsy_alert := d.drw.getD false
            braking := d.brk.getD false
            last_update := now }

/-- `V2XApp.on_message`: decode the payload and merge it into the
vehicle dictionary.  A payload that is not valid JSON, or that lacks
`id`, raises inside the `try` and leaves the store unchanged; a
message for `self.id`, or for `AMB-1` while the ambulance is locally
owned, is ignored; an unknown id is materialized via
`Vehicle.from_json` (whose `None` result is stored as-is); a known id
is merged field by field.  A known entry that holds `None` raises
`AttributeError` on the first assignment, so the store is unchanged. -/
def V2XApp.on_message (selfId : String) (iOwnAmbulance : Bool)
    (store : Store) (payload : Option Msg) (now rx rs : Rat)
    (rc : Int × Int × Int) : Store :=
  match payload with
  | none => store
  | some d =>
    match d.id with
    | none => store
    | some mid =>
      if mid = selfId then store
      else if mid = "AMB-1" ∧ iOwnAmbulance = true then store
      else
        match storeLookup store mid with
        | none => storeSet store mid (Vehicle.from_json (some d) now rx rs rc)
        | some none => store
        | some (some v) => storeSet store mid (some (mergeKnown v d now))

/-- The ghost-collection comprehension of `V2XApp.cleanup_ghosts`:
the ids (other than `self.id`) whose `last_update` is more than
`GHOST_TIMEOUT` old.  The sweep dereferences `v.last_update` on every
entry, so it is modelled over a dictionary whose values are all live
`Vehicle` objects. -/
def V2XApp.ghostIds (selfId : String) (now : Rat)
    (vehicles : List (String × Vehicle)) : List String :=
  (vehicles.filter
    (fun p => decide (p.1 ≠ selfId ∧ now - p.2.last_update > GHOST_TIMEOUT))).map
    Prod.fst

/-- The body of `V2XApp.cleanup_ghosts` after the ghost list has been
collected: spare `AMB-1` when locally owned, then delete. -/
def V2XApp.cleanup_ghosts (selfId : String) (iOwnAmbulance : Bool)
    (now : Rat) (vehicles : List (String × Vehicle)) :
    List (String × Vehicle) :=
  let ghosts := V2XApp.ghostIds selfId now vehicles
  let ghosts2 :=
    if iOwnAmbulance = true then ghosts.filter (fun g => decide (g ≠ "AMB-1"))
    else ghosts
  vehicles.filter (fun p => decide (p.1 ∉ ghosts2))

/-- One inbound MQTT delivery: the (possibly unparseable) payload, the
receive time and the random draws a materialization would use. -/
structure InboundEvent where
  payload : Option Msg
  now : Rat
  rx : Rat
  rs : Rat
  rc : Int × Int × Int
deriving DecidableEq, Repr

/-- Applying one inbound delivery to the store. -/
def applyInbound (selfId : String) (iOwnAmbulance : Bool)
    (store : Store) (e : InboundEvent) : Store :=
  V2XApp.on_message selfId iOwnAmbulance store e.payload e.now e.rx e.rs e.rc

/-- The eight replicated fields of a vehicle (the fields carried by
the wire message). -/
def replicatedFields (v : Vehicle) :
    String × Int × Rat × Rat × Bool × (Int × Int × Int) × Bool × Bool :=
  (v.id, v.lane, v.x, v.speed, v.is_emergency, v.color, v.drowsy_alert, v.braking)

/-- The position wrap the specification describes, for comparison
with the code: the position taken modulo `TRACK_LENGTH`
(`y - TRACK_LENGTH * floor (y / TRACK_LENGTH)`). -/
def specModWrap (y : Rat) : Rat :=
  y - TOTAL_LENGTH * ((⌊y / TOTAL_LENGTH⌋ : Int) : Rat)

/-! Concrete fixtures used by the counterexamples, code-bug
demonstrations and witnesses below. -/

/-- A plain non-emergency car in lane 1 at position 0, speed 30. -/
def carA : Vehicle :=
  { id := "A", is_emergency := false, lane := 1, visual_lane := 1, x := 0,
    speed := 30, user_target_speed := 25, target_speed := 30,
    color := (100, 100, 255), warning_vehicle_ahead := false, braking := false,
    drowsy_alert := false, last_update := 0, lane_change_cooldown := 0 }

/-- A stationary car 50 ahead of `carA` in the same lane. -/
def carB : Vehicle := { carA with id := "B", x := 50, speed := 0 }

/-- A plain car at position 0, lane 1 (yield-scenario subject). -/
def carC : Vehicle := { carA with id := "C" }

/-- An emergency vehicle 350 behind `carC` (circular backward
distance: `(0 - 1650) mod 2000 = 350`) in the same lane. -/
def ambE : Vehicle :=
  { carA with id := "E", is_emergency := true, x := 1650, speed := 60 }

/-- A car about to overshoot the track end: `1980 + 40 * 1 = 2020`. -/
def wrapCarA : Vehicle :=
  { carA with
    id := "W1"
    x := 1980
    speed := 40
    target_speed := 40
    user_target_speed := 40 }

/-- A car landing exactly on the track end: `1990 + 10 * 1 = 2000`. -/
def wrapCarB : Vehicle :=
  { carA with
    id := "W2"
    x := 1990
    speed := 10
    target_speed := 10
    user_target_speed := 10 }

/-- A car whose `drowsy_alert` flag is already set from an earlier
tick. -/
def drowsyCar : Vehicle := { carA with id := "D", drowsy_alert := true }

/-- The local agent's own vehicle, id `CAR1`. -/
def myCar : Vehicle := { carA with id := "CAR1" }

/-- A known remote replica, id `CAR2`. -/
def car2 : Vehicle := { carA with id := "CAR2" }

/-- A locally owned ambulance replica value. -/
def ambOwned : Vehicle := { carA with id := "AMB-1", is_emergency := true }

/-- A wire message that is valid JSON but carries only an `id` field
(every required replicated field missing). -/
def msgIdOnly : Msg := ⟨some "CAR9", none, none, none, none, none, none, none⟩

/-- A wire message for the known id `CAR2` carrying `x` but missing
`lane`, `spd`, `emb` and `col`. -/
def msgPartial : Msg := ⟨some "CAR2", none, some 123, none, none, none, none, none⟩

/-- A complete, well-formed wire message claiming the id `AMB-1`. -/
def msgAmbFull : Msg :=
  ⟨some "AMB-1", some 2, some 500, some 70, some true, some (1, 2, 3),
    some false, some false⟩

/-- A complete, well-formed wire message claiming the id `CAR1`. -/
def msgSelfFull : Msg :=
  ⟨some "CAR1", some 0, some 900, some 10, some false, some (9, 9, 9),
    some true, some true⟩

/-- Delivery of `msgAmbFull` at local time 6. -/
def evAmb : InboundEvent := ⟨some msgAmbFull, 6, 0, 0, (0, 0, 0)⟩

/-- Delivery of `msgSelfFull` at local time 7. -/
def evSelf : InboundEvent := ⟨some msgSelfFull, 7, 0, 0, (0, 0, 0)⟩

/-- A store holding the local vehicle and a locally owned ambulance. -/
def store0 : Store := [("CAR1", some myCar), ("AMB-1", some ambOwned)]

/-- Ghost-sweep fixtures: self, owned ambulance, one stale replica
(`last_update = 0`) and one fresh replica (`last_update = 8`). -/
def vOld : Vehicle := { carA with id := "CAR2", last_update := 0 }

def vNew : Vehicle := { carA with id := "CAR3", last_update := 8 }

def demoStore : List (String × Vehicle) :=
  [("CAR1", myCar), ("AMB-1", ambOwned), ("CAR2", vOld), ("CAR3", vNew)]

end V2X

namespace V2X

/-! ### Helper lemmas -/

/-- The Kinematics step only writes `speed` and `x`. -/
lemma kinematics_drowsy_alert (v : Vehicle) (dt : Rat) :
    (Vehicle.kinematics v dt).drowsy_alert = v.drowsy_alert := rfl

lemma kinematics_lane (v : Vehicle) (dt : Rat) :
    (Vehicle.kinematics v dt).lane = v.lane := rfl

lemma kinematics_cooldown (v : Vehicle) (dt : Rat) :
    (Vehicle.kinematics v dt).lane_change_cooldown = v.lane_change_cooldown := rfl

lemma kinematics_braking (v : Vehicle) (dt : Rat) :
    (Vehicle.kinematics v dt).braking = v.braking := rfl

lemma kinematics_warning (v : Vehicle) (dt : Rat) :
    (Vehicle.kinematics v dt).warning_vehicle_ahead = v.warning_vehicle_ahead := rfl

lemma kinematics_target_speed (v : Vehicle) (dt : Rat) :
    (Vehicle.kinematics v dt).target_speed = v.target_speed := rfl

/-- The speed written by the Kinematics step is the clamped ramp. -/
lemma kinematics_speed (v : Vehicle) (dt : Rat) :
    (Vehicle.kinematics v dt).speed =
      pymax 0 (pymin (rampSpeed v.speed v.target_speed dt) (MAX_SPEED_MS * (3 / 2))) := rfl

/-- `pymax 0 (pymin s cap)` lies in `[0, cap]` when `0 ≤ cap`. -/
lemma pyclamp_bounds (s cap : Rat) (hcap : 0 ≤ cap) :
    0 ≤ pymax 0 (pymin s cap) ∧ pymax 0 (pymin s cap) ≤ cap := by
  unfold pymax pymin
  split_ifs <;> constructor <;> linarith

/-- The position written by the Kinematics step. -/
lemma kinematics_x (v : Vehicle) (dt : Rat) :
    (Vehicle.kinematics v dt).x =
      (if v.x + (Vehicle.kinematics v dt).speed * dt > TOTAL_LENGTH then 0
       else v.x + (Vehicle.kinematics v dt).speed * dt) := rfl

/-- The clamped speed is within the bounds, whatever the ramp did. -/
lemma kinematics_speed_bounds (v : Vehicle) (dt : Rat) :
    0 ≤ (Vehicle.kinematics v dt).speed ∧
      (Vehicle.kinematics v dt).speed ≤ MAX_SPEED_MS * (3 / 2) := by
  rw [kinematics_speed]
  exact pyclamp_bounds _ _ (by norm_num [MAX_SPEED_MS, MAX_SPEED_KMH])

/-! ### C3 -/

/-- Claim C3: for every vehicle state, every `dt ≥ 0`, every target
speed and every set of known vehicles, after one Kinematics step the
speed satisfies `0 ≤ speed ≤ 1.5 * MAX_SPEED`. -/
theorem c3_speed_bounds (v : Vehicle) (dt : Rat) (all : List Vehicle)
    (imp : Bool) (_hdt : 0 ≤ dt) :
    0 ≤ (Vehicle.update_physics v dt all imp).speed ∧
      (Vehicle.update_physics v dt all imp).speed ≤ MAX_SPEED_MS * (3 / 2) :=
  kinematics_speed_bounds (decisionStep v dt (scanNeighbors v all) imp) dt

/-- Witness for C3 at a concrete vehicle and tick. -/
theorem c3_witness :
    0 ≤ (Vehicle.update_physics carA 1 [carA, carB] false).speed ∧
      (Vehicle.update_physics carA 1 [carA, carB] false).speed ≤ MAX_SPEED_MS * (3 / 2) :=
  c3_speed_bounds carA 1 [carA, carB] false (by decide)

/-! ### C4 -/

/-- Counterexample to C4 as stated: the code does not wrap the
position modulo `TRACK_LENGTH`.  From `x = 1980` at speed 40 with
`dt = 1` the code resets the position to `0` whereas
`(1980 + 40) mod 2000 = 20`; and from `x = 1990` at speed 10 the new
position is exactly `2000`, which is not in `[0, TRACK_LENGTH)`. -/
theorem c4_counterexample :
    (0 ≤ wrapCarA.x ∧ wrapCarA.x < TOTAL_LENGTH ∧ (0 : Rat) ≤ 1) ∧
    (Vehicle.kinematics wrapCarA 1).x ≠
      specModWrap (wrapCarA.x + (Vehicle.kinematics wrapCarA 1).speed * 1) ∧
    (0 ≤ wrapCarB.x ∧ wrapCarB.x < TOTAL_LENGTH) ∧
    ¬(Vehicle.kinematics wrapCarB 1).x < TOTAL_LENGTH := by
  have hsA : (Vehicle.kinematics wrapCarA 1).speed = 40 := by
    rw [kinematics_speed]
    norm_num [rampSpeed, pymax, pymin, wrapCarA, carA, MAX_SPEED_MS, MAX_SPEED_KMH]
  have hxA : (Vehicle.kinematics wrapCarA 1).x = 0 := by
    rw [kinematics_x, hsA]
    norm_num [wrapCarA, carA, TOTAL_LENGTH]
  have hsB : (Vehicle.kinematics wrapCarB 1).speed = 10 := by
    rw [kinematics_speed]
    norm_num [rampSpeed, pymax, pymin, wrapCarB, carA, MAX_SPEED_MS, MAX_SPEED_KMH]
  have hxB : (Vehicle.kinematics wrapCarB 1).x = 2000 := by
    rw [kinematics_x, hsB]
    norm_num [wrapCarB, carA, TOTAL_LENGTH]
  refine ⟨⟨by decide, by decide, by decide⟩, ?_, ⟨by decide, by decide⟩, ?_⟩
  · rw [hxA, hsA]
    norm_num [specModWrap, wrapCarA, carA, TOTAL_LENGTH]
  · rw [hxB]
    norm_num [TOTAL_LENGTH]

/-- Claim C4 as amended: for a position in `[0, TRACK_LENGTH)` and
`dt ≥ 0`, one Kinematics step sets the position to
`old + speed * dt` unless that exceeds `TRACK_LENGTH`, in which case
it resets it to `0`; the result lies in `[0, TRACK_LENGTH]` (the
right endpoint is attainable). -/
theorem c4_amended_wrap (v : Vehicle) (dt : Rat)
    (h0 : 0 ≤ v.x) (_h1 : v.x < TOTAL_LENGTH) (hdt : 0 ≤ dt) :
    (Vehicle.kinematics v dt).x =
      (if v.x + (Vehicle.kinematics v dt).speed * dt > TOTAL_LENGTH then 0
       else v.x + (Vehicle.kinematics v dt).speed * dt) ∧
    0 ≤ (Vehicle.kinematics v dt).x ∧
      (Vehicle.kinematics v dt).x ≤ TOTAL_LENGTH := by
  have hs0 : 0 ≤ (Vehicle.kinematics v dt).speed := (kinematics_speed_bounds v dt).1
  have hsd : 0 ≤ (Vehicle.kinematics v dt).speed * dt := mul_nonneg hs0 hdt
  have hL : (0 : Rat) ≤ TOTAL_LENGTH := by norm_num [TOTAL_LENGTH]
  refine ⟨kinematics_x v dt, ?_, ?_⟩
  · rw [kinematics_x]
    split_ifs with hgt
    · exact le_refl 0
    · linarith
  · rw [kinematics_x]
    split_ifs with hgt
    · exact hL
    · linarith

/-- Witness for C4 (amended) at a concrete vehicle and tick. -/
theorem c4_witness :
    (Vehicle.kinematics wrapCarB 1).x =
      (if wrapCarB.x + (Vehicle.kinematics wrapCarB 1).speed * 1 > TOTAL_LENGTH then 0
       else wrapCarB.x + (Vehicle.kinematics wrapCarB 1).speed * 1) ∧
    0 ≤ (Vehicle.kinematics wrapCarB 1).x ∧
      (Vehicle.kinematics wrapCarB 1).x ≤ TOTAL_LENGTH :=
  c4_amended_wrap wrapCarB 1 (by decide) (by decide) (by decide)

/-! ### C6 -/

/-- Claim C6: decoding the encoding of any vehicle reproduces all
eight replicated fields (`id`, `lane`, `position`, `speed`,
`isEmergency`, `color`, `drowsyAlert`, `braking`) exactly, whatever
`time.time()` and the constructor's random draws return. -/
theorem c6_codec_round_trip (v : Vehicle) (now rx rs : Rat)
    (rc : Int × Int × Int) :
    (Vehicle.from_json (some (Vehicle.to_json v)) now rx rs rc).map replicatedFields
      = some (replicatedFields v) := rfl

/-! ### C1 -/

/-- Claim C1 fails on the code (code bug): `V2XApp.on_message` does
not discard every malformed message wholesale.  A valid-JSON message
carrying only an `id` for an unknown vehicle stores the `None`
returned by the failed decode as a new dictionary entry (which later
crashes the tick loop), and a message for a known vehicle carrying
`x` but missing `lane` mutates `x` before the `KeyError` aborts the
merge, a partial application. -/
theorem c1_malformed_message_mutates_store :
    V2XApp.on_message "CAR1" false [("CAR1", some myCar)] (some msgIdOnly) 5 0 0 (0, 0, 0)
      = [("CAR1", some myCar), ("CAR9", none)] ∧
    V2XApp.on_message "CAR1" false [("CAR2", some car2)] (some msgPartial) 5 0 0 (0, 0, 0)
      = [("CAR2", some { car2 with x := 123 })] :=
  ⟨rfl, rfl⟩


/-! ### Decision Engine claims -/

/-- With `is_me_drowsy = false` the Decision Engine never writes
`drowsy_alert`. -/
lemma decisionStep_not_drowsy_alert (v : Vehicle) (dt : Rat)
    (scan : Option Rat × Option Rat × Bool) :
    (decisionStep v dt scan false).drowsy_alert = v.drowsy_alert := by
  obtain ⟨dA, sA, amb⟩ := scan
  cases dA <;>
    · simp only [decisionStep]
      split_ifs <;> first | contradiction | rfl

/-- The neighbour scan ignores the `braking` and
`warning_vehicle_ahead` flags of the scanning vehicle. -/
lemma scanStep_flags (v : Vehicle) (b w : Bool) :
    scanStep { v with braking := b, warning_vehicle_ahead := w } = scanStep v :=
  funext fun _ => funext fun _ => rfl

/-- Claim C7: an impaired vehicle outside the dedicated lane with an
elapsed cooldown gets `drowsy_alert`, moves one lane toward the
dedicated lane, resets the cooldown to `1.0`, and the
following-distance rules are not evaluated (`braking`, `warning`
untouched by them, `target_speed` unchanged). -/
theorem c7_drowsy_lane_change (v : Vehicle) (dt : Rat) (all : List Vehicle)
    (hlane : v.lane ≠ SERVICE_LANE_INDEX) (_hlo : 0 ≤ v.lane) (_hhi : v.lane < LANE_COUNT)
    (hcd : v.lane_change_cooldown ≤ 0) (hdt : 0 ≤ dt) :
    (Vehicle.update_physics v dt all true).drowsy_alert = true ∧
    (Vehicle.update_physics v dt all true).lane = v.lane + 1 ∧
    (Vehicle.update_physics v dt all true).lane_change_cooldown = 1 ∧
    (Vehicle.update_physics v dt all true).braking = false ∧
    (Vehicle.update_physics v dt all true).warning_vehicle_ahead = false ∧
    (Vehicle.update_physics v dt all true).target_speed = v.target_speed := by
  have hcd2 : v.lane_change_cooldown - dt ≤ 0 := by linarith
  have key : Vehicle.update_physics v dt all true =
      Vehicle.kinematics (decisionStep v dt (scanNeighbors v all) true) dt := rfl
  rw [key, kinematics_drowsy_alert, kinematics_lane, kinematics_cooldown,
    kinematics_braking, kinematics_warning, kinematics_target_speed]
  simp only [decisionStep]
  simp [hlane, hcd2]


/-- Witness for C7: `carA` (lane 1, cooldown 0), one impaired tick. -/
theorem c7_witness :
    (Vehicle.update_physics carA 1 [carA] true).drowsy_alert = true ∧
    (Vehicle.update_physics carA 1 [carA] true).lane = carA.lane + 1 ∧
    (Vehicle.update_physics carA 1 [carA] true).lane_change_cooldown = 1 ∧
    (Vehicle.update_physics carA 1 [carA] true).braking = false ∧
    (Vehicle.update_physics carA 1 [carA] true).warning_vehicle_ahead = false ∧
    (Vehicle.update_physics carA 1 [carA] true).target_speed = carA.target_speed :=
  c7_drowsy_lane_change carA 1 [carA] (by decide) (by decide) (by decide)
    (by decide) (by decide)

/-- Claim C8: a non-impaired, non-emergency vehicle with no emergency
vehicle behind it on its lane and a same-lane vehicle ahead within
`CRITICAL_DIST` gets `target_speed = 0`, `braking` and the
vehicle-ahead warning. -/
theorem c8_critical_distance_stop (v : Vehicle) (dt : Rat) (all : List Vehicle)
    (d : Rat) (sa : Option Rat)
    (hscan : scanNeighbors v all = (some d, sa, false))
    (hem : v.is_emergency = false)
    (hd : d < CRITICAL_DIST) :
    (Vehicle.update_physics v dt all false).target_speed = 0 ∧
    (Vehicle.update_physics v dt all false).braking = true ∧
    (Vehicle.update_physics v dt all false).warning_vehicle_ahead = true := by
  have key : Vehicle.update_physics v dt all false =
      Vehicle.kinematics (decisionStep v dt (scanNeighbors v all) false) dt := rfl
  rw [key, hscan, kinematics_target_speed, kinematics_braking, kinematics_warning]
  simp only [decisionStep]
  simp [hem, hd]

/-- Witness for C8, the spec scenario: `carA` at position 0, lane 1,
speed 30; `carB` stationary at position 50 in the same lane;
`CRITICAL_DIST = 80 > 50`. -/
theorem c8_witness :
    (Vehicle.update_physics carA 1 [carA, carB] false).target_speed = 0 ∧
    (Vehicle.update_physics carA 1 [carA, carB] false).braking = true ∧
    (Vehicle.update_physics carA 1 [carA, carB] false).warning_vehicle_ahead = true :=
  c8_critical_distance_stop carA 1 [carA, carB] 50 (some 0)
    (by
      norm_num [scanNeighbors, scanStep, carA, carB, AMBULANCE_DIST, TOTAL_LENGTH]
      decide)
    (by decide) (by decide)

/-- Claim C9: a non-impaired, non-emergency vehicle with an elapsed
cooldown and an emergency vehicle within `AMBULANCE_DIST` behind on
its lane moves exactly one lane away (up if not at the outer edge,
else down) and sets the cooldown to `2.0`. -/
theorem c9_yield_to_emergency (v : Vehicle) (dt : Rat) (all : List Vehicle)
    (hscan : (scanNeighbors v all).2.2 = true)
    (hem : v.is_emergency = false)
    (hcd : v.lane_change_cooldown ≤ 0) (hdt : 0 ≤ dt)
    (_hlo : 0 ≤ v.lane) (hhi : v.lane < LANE_COUNT) :
    (Vehicle.update_physics v dt all false).lane =
      (if v.lane < LANE_COUNT - 1 then v.lane + 1 else v.lane - 1) ∧
    (Vehicle.update_physics v dt all false).lane_change_cooldown = 2 := by
  have hcd2 : v.lane_change_cooldown - dt ≤ 0 := by linarith
  have key : Vehicle.update_physics v dt all false =
      Vehicle.kinematics (decisionStep v dt (scanNeighbors v all) false) dt := rfl
  rw [key, kinematics_lane, kinematics_cooldown]
  simp only [decisionStep]
  by_cases hl : v.lane < LANE_COUNT - 1
  · simp [hscan, hem, hcd2, hl]
  · have hl2 : v.lane > 0 := by
      norm_num [LANE_COUNT] at hl hhi ⊢
      omega
    simp [hscan, hem, hcd2, hl, hl2]

/-- Witness for C9, the spec scenario: emergency vehicle `ambE` 350
behind `carC` on the same lane (`AMBULANCE_DIST = 400`); `carC` moves
from lane 1 to lane 2 with cooldown 2. -/
theorem c9_witness :
    (Vehicle.update_physics carC 1 [carC, ambE] false).lane = 2 ∧
    (Vehicle.update_physics carC 1 [carC, ambE] false).lane_change_cooldown = 2 := by
  have h := c9_yield_to_emergency carC 1 [carC, ambE]
    (by
      norm_num [scanNeighbors, scanStep, carC, ambE, carA, AMBULANCE_DIST, TOTAL_LENGTH]
      decide)
    (by decide) (by decide) (by decide) (by decide) (by decide)
  refine ⟨?_, h.2⟩
  rw [h.1]
  decide

/-- Counterexample to C10 as stated: a vehicle whose `drowsy_alert`
was set on an earlier tick keeps it `true` through a tick with
`attentionImpaired = false` in which no rule sets it (alone on the
road, free cruise), so the flag does not reflect the current tick's
decision output. -/
theorem c10_counterexample :
    ¬(Vehicle.update_physics drowsyCar 1 [drowsyCar] false).drowsy_alert = false := by
  have key : Vehicle.update_physics drowsyCar 1 [drowsyCar] false =
      Vehicle.kinematics (decisionStep drowsyCar 1 (scanNeighbors drowsyCar [drowsyCar]) false) 1 := rfl
  rw [key, kinematics_drowsy_alert, decisionStep_not_drowsy_alert]
  decide

/-- Claim C10 as amended: `braking` and `warning` do reflect the
current tick only (the step resets them before any rule runs, so its
output does not depend on their previous values), but `drowsy_alert`
is sticky: a step with `attentionImpaired = false` leaves it exactly
as it was, never resetting it to `false`. -/
theorem c10_amended_flags (v : Vehicle) (dt : Rat) (all : List Vehicle)
    (b w imp : Bool) :
    Vehicle.update_physics { v with braking := b, warning_vehicle_ahead := w } dt all imp
      = Vehicle.update_physics v dt all imp ∧
    (Vehicle.update_physics v dt all false).drowsy_alert = v.drowsy_alert := by
  constructor
  · show Vehicle.kinematics (decisionStep _ dt (scanNeighbors _ all) imp) dt = _
    rw [scanNeighbors, scanStep_flags]
    rfl
  · have key : Vehicle.update_physics v dt all false =
        Vehicle.kinematics (decisionStep v dt (scanNeighbors v all) false) dt := rfl
    rw [key, kinematics_drowsy_alert, decisionStep_not_drowsy_alert]


/-! ### Replication Store claims -/

/-- Assigning one key leaves lookups of every other key unchanged. -/
lemma storeLookup_storeSet_ne (s : Store) (key k : String) (v : Option Vehicle)
    (h : k ≠ key) :
    storeLookup (storeSet s key v) k = storeLookup s k := by
  induction s with
  | nil =>
    simp only [storeSet, storeLookup]
    rw [if_neg (fun he => h he.symm)]
  | cons hd tl ih =>
    obtain ⟨k0, w⟩ := hd
    by_cases hk : k0 = key
    · subst hk
      simp only [storeSet, if_pos rfl, storeLookup]
      rw [if_neg (fun he => h he.symm), if_neg (fun he => h he.symm)]
    · simp only [storeSet, if_neg hk, storeLookup]
      by_cases hk2 : k0 = k
      · rw [if_pos hk2, if_pos hk2]
      · rw [if_neg hk2, if_neg hk2, ih]

/-- `V2XApp.on_message` never writes the key `selfId`, nor the key
`AMB-1` while the ambulance is locally owned. -/
lemma on_message_preserves (selfId : String) (iOwnAmbulance : Bool)
    (store : Store) (payload : Option Msg) (now rx rs : Rat)
    (rc : Int × Int × Int) (k : String)
    (hk : k = selfId ∨ (iOwnAmbulance = true ∧ k = "AMB-1")) :
    storeLookup (V2XApp.on_message selfId iOwnAmbulance store payload now rx rs rc) k
      = storeLookup store k := by
  cases payload with
  | none => rfl
  | some d =>
    simp only [V2XApp.on_message]
    cases d.id with
    | none => rfl
    | some mid =>
      dsimp only
      by_cases h1 : mid = selfId
      · rw [if_pos h1]
      · rw [if_neg h1]
        by_cases h2 : mid = "AMB-1" ∧ iOwnAmbulance = true
        · rw [if_pos h2]
        · rw [if_neg h2]
          have hkm : k ≠ mid := by
            rcases hk with hks | ⟨hamb, hkA⟩
            · subst hks
              exact fun he => h1 he.symm
            · subst hkA
              exact fun he => h2 ⟨he.symm, hamb⟩
          cases storeLookup store mid with
          | none => rw [storeLookup_storeSet_ne _ _ _ _ hkm]
          | some ov =>
            cases ov with
            | none => rfl
            | some v => rw [storeLookup_storeSet_ne _ _ _ _ hkm]

/-- Claim C2: no sequence of inbound deliveries ever changes the
local agent's own entry, and, while the ambulance is locally owned,
none changes the `AMB-1` entry either. -/
theorem c2_inbound_never_changes_owned_state (selfId : String)
    (iOwnAmbulance : Bool) (events : List InboundEvent) (store : Store) :
    storeLookup (events.foldl (applyInbound selfId iOwnAmbulance) store) selfId
      = storeLookup store selfId ∧
    (iOwnAmbulance = true →
      storeLookup (events.foldl (applyInbound selfId iOwnAmbulance) store) "AMB-1"
        = storeLookup store "AMB-1") := by
  have key : ∀ (k : String), (k = selfId ∨ (iOwnAmbulance = true ∧ k = "AMB-1")) →
      ∀ (es : List InboundEvent) (s : Store),
      storeLookup (es.foldl (applyInbound selfId iOwnAmbulance) s) k = storeLookup s k := by
    intro k hk es
    induction es with
    | nil => intro s; rfl
    | cons e tl ih =>
      intro s
      rw [List.foldl_cons, ih]
      exact on_message_preserves selfId iOwnAmbulance s e.payload e.now e.rx e.rs e.rc k hk
  exact ⟨key selfId (Or.inl rfl) events store,
    fun h => key "AMB-1" (Or.inr ⟨h, rfl⟩) events store⟩

/-- Witness for C2: two well-formed deliveries, one claiming `AMB-1`
(locally owned) and one claiming the local id `CAR1`, leave both
entries untouched. -/
theorem c2_witness :
    storeLookup (List.foldl (applyInbound "CAR1" true) store0 [evAmb, evSelf]) "CAR1"
      = storeLookup store0 "CAR1" ∧
    storeLookup (List.foldl (applyInbound "CAR1" true) store0 [evAmb, evSelf]) "AMB-1"
      = storeLookup store0 "AMB-1" := by
  have h := c2_inbound_never_changes_owned_state "CAR1" true [evAmb, evSelf] store0
  exact ⟨h.1, h.2 rfl⟩


/-- In a dictionary (no duplicate keys) a key determines its value. -/
lemma keys_nodup_val_eq {l : List (String × Vehicle)}
    (hnd : (l.map Prod.fst).Nodup) {id : String} {v w : Vehicle}
    (hv : (id, v) ∈ l) (hw : (id, w) ∈ l) : v = w := by
  induction l with
  | nil => cases hv
  | cons hd tl ih =>
    obtain ⟨hk, hval⟩ := hd
    rw [List.map_cons, List.nodup_cons] at hnd
    rcases List.mem_cons.mp hv with heq | hv2
    · injection heq with he1 he2
      subst he1
      subst he2
      rcases List.mem_cons.mp hw with heq2 | hw2
      · injection heq2 with _ he4
        exact he4.symm
      · exact absurd (List.mem_map.mpr ⟨(id, w), hw2, rfl⟩) hnd.1
    · rcases List.mem_cons.mp hw with heq2 | hw2
      · injection heq2 with he3 _
        subst he3
        exact absurd (List.mem_map.mpr ⟨(id, v), hv2, rfl⟩) hnd.1
      · exact ih hnd.2 hv2 hw2

/-- Characterization of the ghost list membership. -/
lemma mem_ghostIds {selfId : String} {now : Rat}
    {store : List (String × Vehicle)} {id : String} :
    id ∈ V2XApp.ghostIds selfId now store ↔
      ∃ v, (id, v) ∈ store ∧ id ≠ selfId ∧ now - v.last_update > GHOST_TIMEOUT := by
  unfold V2XApp.ghostIds
  constructor
  · intro h
    rcases List.mem_map.mp h with ⟨p, hp, hfst⟩
    rcases List.mem_filter.mp hp with ⟨hmem, hpred⟩
    rw [decide_eq_true_eq] at hpred
    obtain ⟨k, v⟩ := p
    cases hfst
    exact ⟨v, hmem, hpred.1, hpred.2⟩
  · rintro ⟨v, hmem, hne, hst⟩
    exact List.mem_map.mpr
      ⟨(id, v), List.mem_filter.mpr ⟨hmem, by rw [decide_eq_true_eq]; exact ⟨hne, hst⟩⟩, rfl⟩

/-- Characterization of survival of the ghost sweep: an entry remains
exactly when it was there and, if its id is in the ghost list, it is
the owned `AMB-1`. -/
lemma mem_cleanup_iff {selfId : String} {iOwnAmbulance : Bool} {now : Rat}
    {store : List (String × Vehicle)} {p : String × Vehicle} :
    p ∈ V2XApp.cleanup_ghosts selfId iOwnAmbulance now store ↔
      p ∈ store ∧ (p.1 ∈ V2XApp.ghostIds selfId now store →
        iOwnAmbulance = true ∧ p.1 = "AMB-1") := by
  unfold V2XApp.cleanup_ghosts
  cases iOwnAmbulance with
  | false =>
    simp only [Bool.false_eq_true, if_false, List.mem_filter, decide_eq_true_eq]
    constructor
    · rintro ⟨hmem, hnin⟩
      exact ⟨hmem, fun hin => absurd hin hnin⟩
    · rintro ⟨hmem, himp⟩
      exact ⟨hmem, fun hin => by simpa using (himp hin).1⟩
  | true =>
    simp only [if_true, List.mem_filter, decide_eq_true_eq]
    constructor
    · rintro ⟨hmem, hnin⟩
      refine ⟨hmem, fun hin => ⟨by simp, ?_⟩⟩
      by_contra hne
      exact hnin ⟨hin, hne⟩
    · rintro ⟨hmem, himp⟩
      refine ⟨hmem, fun hcon => ?_⟩
      rcases hcon with ⟨hg, hne2⟩
      exact hne2 (himp hg).2

/-- Claim C5: the ghost sweep removes exactly the replicas whose
`last_update` is strictly more than `GHOST_TIMEOUT` in the past
(strictly newer replicas are kept), and it never removes the local
agent's own entry, nor the `AMB-1` entry while the ambulance is
locally owned. -/
theorem c5_ghost_sweep (selfId : String) (iOwnAmbulance : Bool) (now : Rat)
    (store : List (String × Vehicle)) :
    (∀ id v, (id, v) ∈ store → id ≠ selfId →
        ¬(iOwnAmbulance = true ∧ id = "AMB-1") →
        now > v.last_update + GHOST_TIMEOUT →
        (id, v) ∉ V2XApp.cleanup_ghosts selfId iOwnAmbulance now store) ∧
    ((store.map Prod.fst).Nodup → ∀ id v, (id, v) ∈ store →
        now < v.last_update + GHOST_TIMEOUT →
        (id, v) ∈ V2XApp.cleanup_ghosts selfId iOwnAmbulance now store) ∧
    (∀ v, (selfId, v) ∈ store →
        (selfId, v) ∈ V2XApp.cleanup_ghosts selfId iOwnAmbulance now store) ∧
    (iOwnAmbulance = true → ∀ v, ("AMB-1", v) ∈ store →
        ("AMB-1", v) ∈ V2XApp.cleanup_ghosts selfId iOwnAmbulance now store) := by
  refine ⟨?_, ?_, ?_, ?_⟩
  · intro id v hmem hne hng hstale hcontra
    rcases mem_cleanup_iff.mp hcontra with ⟨_, himp⟩
    have hin : id ∈ V2XApp.ghostIds selfId now store :=
      mem_ghostIds.mpr ⟨v, hmem, hne, by linarith⟩
    exact hng (himp hin)
  · intro hnd id v hmem hfresh
    refine mem_cleanup_iff.mpr ⟨hmem, fun hin => ?_⟩
    rcases mem_ghostIds.mp hin with ⟨w, hmem2, _, hstale2⟩
    have hvw : v = w := keys_nodup_val_eq hnd hmem hmem2
    subst hvw
    exfalso
    linarith
  · intro v hmem
    refine mem_cleanup_iff.mpr ⟨hmem, fun hin => ?_⟩
    rcases mem_ghostIds.mp hin with ⟨_, _, hne, _⟩
    exact absurd rfl hne
  · intro hown v hmem
    exact mem_cleanup_iff.mpr ⟨hmem, fun _ => ⟨hown, rfl⟩⟩

/-- Witness for C5 on a concrete store at time 10 with
`GHOST_TIMEOUT = 3`: the stale replica `CAR2` (`last_update = 0`) is
removed, the fresh replica `CAR3` (`last_update = 8`) is kept, and
the self entry and the owned `AMB-1` entry survive. -/
theorem c5_witness :
    ("CAR2", vOld) ∉ V2XApp.cleanup_ghosts "CAR1" true 10 demoStore ∧
    ("CAR3", vNew) ∈ V2XApp.cleanup_ghosts "CAR1" true 10 demoStore ∧
    ("CAR1", myCar) ∈ V2XApp.cleanup_ghosts "CAR1" true 10 demoStore ∧
    ("AMB-1", ambOwned) ∈ V2XApp.cleanup_ghosts "CAR1" true 10 demoStore := by
  have h := c5_ghost_sweep "CAR1" true 10 demoStore
  refine ⟨h.1 "CAR2" vOld (by decide) (by decide) (by decide) ?_,
    h.2.1 (by decide) "CAR3" vNew (by decide) ?_,
    h.2.2.1 myCar (by decide),
    h.2.2.2 rfl ambOwned (by decide)⟩
  · norm_num [vOld, carA, GHOST_TIMEOUT]
  · norm_num [vNew, carA, GHOST_TIMEOUT]

end V2X
